import Mathlib

/-!
Shallow embedding of `packages/aws-cdk/lib/api/deployments.ts` (the
`Deployments` façade): credential caching, the bootstrap compatibility
gate, the rollback orchestration loop, and the asset publisher cache.

External collaborators (SDK provider, CloudFormation API, stack-status
helpers, environment resources) are modelled as oracle functions packaged
in a `World` structure; every network call an operation performs is
recorded in an `ApiCall` trace so that "no mutating call was issued"
style properties are statable.
-/

set_option maxRecDepth 4000
set_option autoImplicit false

/-- A resolved target environment: `{account, region}` (value equality). -/
structure Environment where
  account : String
  region : String
deriving DecidableEq, Repr

/-- Modelled from the spec: `AccessMode` enum `{ForReading, ForWriting}`
(`Mode` lives in `aws-auth/credentials`, outside the provided source).
It is a numeric TS enum, so `ForReading` stringifies to `"0"` and
`ForWriting` to `"1"`. -/
inductive Mode
  | forReading
  | forWriting
deriving DecidableEq, Repr

/-- String rendering of `Mode` as used by the template literal
`${mode}` in `cachedSdkForEnvironment` (numeric TS enum values). -/
def modeStr : Mode → String
  | .forReading => "0"
  | .forWriting => "1"

/-- `CredentialsOptions` from `aws-auth/sdk-provider`: an optional
role-elevation chain. `assumeRoleAdditionalOptions` is an arbitrary JSON
object in the source; it is modelled here by its `JSON.stringify`
serialization (present iff the object is present — any object is truthy). -/
structure CredentialsOptions where
  assumeRoleArn : Option String := none
  assumeRoleExternalId : Option String := none
  assumeRoleAdditionalOptions : Option String := none
deriving DecidableEq, Repr

/-- `SdkForEnvironment`: the resolved client (opaque identity modelled as a
`Nat`) plus whether the requested role was actually assumed. -/
structure SdkForEnvironment where
  sdk : Nat
  didAssumeRole : Bool
deriving DecidableEq, Repr

/-- The cache key computed by `Deployments.cachedSdkForEnvironment`
(lines 872-884): `account:region:mode:assumeRoleArn:assumeRoleExternalId`
with the serialized additional options appended only when present. -/
def cacheKeyFor (environment : Environment) (mode : Mode)
    (options : Option CredentialsOptions) : String :=
  let base := [
    environment.account,
    environment.region,
    modeStr mode,
    (options.bind (·.assumeRoleArn)).getD "",
    (options.bind (·.assumeRoleExternalId)).getD ""]
  let cacheKeyElements :=
    match options.bind (·.assumeRoleAdditionalOptions) with
    | some json => base ++ [json]
    | none => base
  String.intercalate ":" cacheKeyElements

/-- Result of one `cachedSdkForEnvironment` call: the value handed to the
caller, the cache afterwards, and whether the underlying provider
(`sdkProvider.forEnvironment`) was invoked. -/
structure CachedSdkResult where
  value : SdkForEnvironment
  cache : List (String × SdkForEnvironment)
  providerInvoked : Bool
deriving Repr

/-- `Deployments.cachedSdkForEnvironment` (lines 867-892): look the key up
in `sdkCache`; on a hit return the existing entry, otherwise call the
provider and store the result. -/
def cachedSdkForEnvironment
    (provider : Environment → Mode → Option CredentialsOptions → SdkForEnvironment)
    (cache : List (String × SdkForEnvironment))
    (environment : Environment) (mode : Mode)
    (options : Option CredentialsOptions) : CachedSdkResult :=
  let cacheKey := cacheKeyFor environment mode options
  match cache.lookup cacheKey with
  | some existing => ⟨existing, cache, false⟩
  | none =>
    let ret := provider environment mode options
    ⟨ret, (cacheKey, ret) :: cache, true⟩

/-- Modelled from the spec: the message text of a version-mismatch
failure of the bootstrap gate. -/
def versionShortfallMessage (required found : Nat) : String :=
  "This CDK deployment requires bootstrap stack version " ++
    toString required ++ ", found " ++ toString found

/-- Modelled from the spec: `EnvironmentResources.validateVersion`
(§4.3 Bootstrap Compatibility Gate; `environment-resources` is outside
the provided source). No declared requirement succeeds trivially;
otherwise the live version is compared and a strict shortfall is a
version-mismatch error. -/
def envValidateVersion (requiresBootstrapStackVersion : Option Nat)
    (liveVersion : Nat) : Except String Unit :=
  match requiresBootstrapStackVersion with
  | none => .ok ()
  | some required =>
    if liveVersion < required then
      .error (versionShortfallMessage required liveVersion)
    else
      .ok ()

/-- `Deployments.validateBootstrapStackVersion` (lines 854-865): call the
environment-resources validation and prepend `stackName: ` to any failure
message. The SSM parameter location argument is carried for fidelity but
the live value it designates is supplied directly by the world. -/
def validateBootstrapStackVersion (stackName : String)
    (requiresBootstrapStackVersion : Option Nat)
    (bootstrapStackVersionSsmParameter : Option String)
    (liveVersion : Nat) : Except String Unit :=
  let _ := bootstrapStackVersionSsmParameter
  match envValidateVersion requiresBootstrapStackVersion liveVersion with
  | .ok _ => .ok ()
  | .error m => .error (stackName ++ ": " ++ m)

/-- `BOOTSTRAP_STACK_VERSION_FOR_ROLLBACK` (line 23). -/
def BOOTSTRAP_STACK_VERSION_FOR_ROLLBACK : Nat := 23

/-- The lookup-role declaration carried by a stack artifact
(`stack.lookupRole` from `cx-api`). -/
structure LookupRole where
  arn : String
  assumeRoleExternalId : Option String := none
  assumeRoleAdditionalOptions : Option String := none
  requiresBootstrapStackVersion : Option Nat := none
  bootstrapStackVersionSsmParameter : Option String := none
deriving DecidableEq, Repr

/-- The fields of `cxapi.CloudFormationStackArtifact` consumed by
`deployments.ts`. -/
structure StackArtifact where
  stackName : String
  displayName : String := ""
  environment : Option Environment := none
  assumeRoleArn : Option String := none
  assumeRoleExternalId : Option String := none
  assumeRoleAdditionalOptions : Option String := none
  cloudFormationExecutionRoleArn : Option String := none
  requiresBootstrapStackVersion : Option Nat := none
  bootstrapStackVersionSsmParameter : Option String := none
  lookupRole : Option LookupRole := none
deriving DecidableEq, Repr

/-- `RollbackChoice` from `util/cloudformation/stack-status` (outside the
provided source). Modelled from the spec: enum
`{None, StartRollback, ContinueUpdateRollback, RollbackFailed}` derived
from the live status of a stack at poll time. -/
inductive RollbackChoice
  | NONE
  | START_ROLLBACK
  | CONTINUE_UPDATE_ROLLBACK
  | ROLLBACK_FAILED
deriving DecidableEq, Repr

/-- Modelled from the spec: the classes of live stack status that matter to
the rollback orchestrator (`StackStatus` from
`util/cloudformation/stack-status` is outside the provided source).
A single live status determines both the derived rollback choice and
whether it represents rollback success, so the two derivations below are
functions of one underlying status kind:
`stable` (no rollback needed), `rollbackComplete` (stable rollback-success
status), `createUpdateFailed` (needs a rollback started),
`updateRollbackFailed` (stuck, needs explicit continuation),
`rollbackFailedState` (terminal failed rollback). -/
inductive StackStatusKind
  | stable
  | rollbackComplete
  | createUpdateFailed
  | updateRollbackFailed
  | rollbackFailedState
deriving DecidableEq, Repr

/-- Modelled from the spec: the rollback choice derived from a live
status. -/
def StackStatusKind.rollbackChoice : StackStatusKind → RollbackChoice
  | .stable => .NONE
  | .rollbackComplete => .NONE
  | .createUpdateFailed => .START_ROLLBACK
  | .updateRollbackFailed => .CONTINUE_UPDATE_ROLLBACK
  | .rollbackFailedState => .ROLLBACK_FAILED

/-- Modelled from the spec: whether a live status represents rollback
success (`stackStatus.isRollbackSuccess`). -/
def StackStatusKind.isRollbackSuccess : StackStatusKind → Bool
  | .rollbackComplete => true
  | _ => false

/-- One entry of `StackEventPoller.resourceErrors` (the poller itself is
in `util/cloudformation/stack-event-poller`, outside the provided source):
a failure event with its stack-event flag, the chain of parent-stack
logical ids (non-empty exactly for nested-stack-internal failures), and
the logical resource id of the event. -/
structure ResourceEvent where
  isStackEvent : Bool
  parentStackLogicalIds : List String
  logicalResourceId : Option String := none
deriving DecidableEq, Repr

/-- Outcome of one `stabilizeStack` call as observed by the rollback loop:
the stack stabilized at some final status, the lookup returned `undefined`
(stack disappeared), or the wait threw with a message. -/
inductive StabilizeOutcome
  | stabilized (finalStatus : StackStatusKind)
  | disappeared
  | threw (msg : String)
deriving DecidableEq, Repr

/-- Oracle for every external collaborator touched by the embedded
operations.  Per-iteration quantities are indexed by the iteration
counter of the rollback loop (one lookup, at most one event poll and one
stabilization wait happen per iteration). -/
structure World where
  resolvedEnvironment : Environment
  replacePh : Option String → Option String
  provider : Environment → Mode → Option CredentialsOptions → SdkForEnvironment
  liveVersion : Nat
  ssmVersion : String → Nat
  lookupStatus : Nat → StackStatusKind
  pollErrors : Nat → List ResourceEvent
  stabilizeOutcome : Nat → StabilizeOutcome
  monitorErrors : Nat → List String

/-- An `AssetPublishing` instance as cached by `publisherCache`: its
identity (creation counter), the manifest it was built for, the
environment its `PublishingAws` wraps, and its progress-listener
configuration. -/
structure Publisher where
  id : Nat
  manifest : Nat
  env : Environment
  msgPrefix : String
  quiet : Bool
deriving DecidableEq, Repr

/-- The per-instance mutable state of a `Deployments` object: the SDK
cache, the publisher cache (keyed by manifest reference identity), the
counter used to give each newly constructed publisher a distinct
identity, and the `quiet` constructor prop. -/
structure DeploymentsState where
  sdkCache : List (String × SdkForEnvironment) := []
  publisherCache : List (Nat × Publisher) := []
  nextPublisherId : Nat := 0
  quiet : Bool := false

/-- One external API interaction performed by an embedded operation. -/
inductive ApiCall
  | resolveCreds (cacheKey : String)
  | validateVersionCall (required : Option Nat)
  | describeStack (name : String)
  | pollEvents (name : String)
  | rollbackStackCall (name : String) (roleArn : Option String) (retainExceptOnCreate : Bool)
  | continueUpdateRollbackCall (name : String) (roleArn : Option String) (resourcesToSkip : List String)
  | stabilizeCall (name : String)
  | delegateDeploy (name : String)
deriving DecidableEq, Repr

/-- Whether a call mutates control-plane state (a rollback initiation, a
rollback continuation, or the delegated stack deployment). -/
def ApiCall.isMutating : ApiCall → Bool
  | .rollbackStackCall .. => true
  | .continueUpdateRollbackCall .. => true
  | .delegateDeploy .. => true
  | _ => false

/-- The mutating subset of a trace. -/
def mutatingCalls (t : List ApiCall) : List ApiCall :=
  t.filter ApiCall.isMutating

/-- Errors thrown by the embedded operations, tagged by throw site and
carrying the message data of the corresponding `new Error(...)`. -/
inductive CdkErr
  | conflictingMethod
  | combineForceOrphan
  | noEnvironment (displayName : String)
  | versionMismatch (msg : String)
  | perIteration (stackErrorMessage : String)
  | noProgress
  | assetFailed (msg : String)
deriving DecidableEq, Repr

/-- The exact message text of each error (`deployments.ts` throw sites;
`\x27` is an apostrophe). -/
def CdkErr.message : CdkErr → String
  | .conflictingMethod =>
    "You cannot supply both \x27deploymentMethod\x27 and \x27changeSetName/execute\x27. Supply one or the other."
  | .combineForceOrphan => "Cannot combine --force with --orphan"
  | .noEnvironment d => "The stack " ++ d ++ " does not have an environment"
  | .versionMismatch m => m
  | .perIteration m =>
    m ++ " (fix problem and retry, or orphan these resources using --orphan or --force)"
  | .noProgress =>
    "Rollback did not finish after a large number of iterations; stopping because it looks like we\x27re not making progress anymore. You can retry if rollback was progressing as expected."
  | .assetFailed m => m

/-- `suffixWithErrors` (lines 928-932). -/
def suffixWithErrors (msg : String) (errors : Option (List String)) : String :=
  match errors with
  | some es => if 0 < es.length then msg ++ ": " ++ String.intercalate ", " es else msg
  | none => msg

/-- The value produced by `Deployments.prepareSdkFor`. -/
structure PreparedSdk where
  stackSdk : SdkForEnvironment
  resolvedEnvironment : Environment
  cloudFormationRoleArn : Option String
deriving Repr

/-- `Deployments.prepareSdkFor` (lines 669-700): fail when the stack has no
environment, resolve the environment, substitute placeholders into the
role ARNs, and fetch the cached SDK for
`(environment, mode, credentials options)`. Emits one `resolveCreds`
trace entry for the credential resolution. -/
def prepareSdkFor (w : World) (st : DeploymentsState) (stack : StackArtifact)
    (roleArn : Option String) (mode : Mode) :
    List ApiCall × Except CdkErr (PreparedSdk × DeploymentsState) :=
  match stack.environment with
  | none => ([], .error (.noEnvironment stack.displayName))
  | some _ =>
    let resolvedEnvironment := w.resolvedEnvironment
    let assumeRoleArn := w.replacePh stack.assumeRoleArn
    let cloudFormationRoleArn := w.replacePh
      (match roleArn with
       | some r => some r
       | none => stack.cloudFormationExecutionRoleArn)
    let credOptions : CredentialsOptions :=
      { assumeRoleArn := assumeRoleArn
        assumeRoleExternalId := stack.assumeRoleExternalId
        assumeRoleAdditionalOptions := stack.assumeRoleAdditionalOptions }
    let r := cachedSdkForEnvironment w.provider st.sdkCache resolvedEnvironment mode
      (some credOptions)
    ([.resolveCreds (cacheKeyFor resolvedEnvironment mode (some credOptions))],
     .ok ({ stackSdk := r.value, resolvedEnvironment, cloudFormationRoleArn },
          { st with sdkCache := r.cache }))

/-- The structured result `{notInRollbackableState?, success?}` of
`rollbackStack` (optional fields modelled as `Option Bool`). -/
structure RollbackStackResult where
  notInRollbackableState : Option Bool := none
  success : Option Bool := none
deriving DecidableEq, Repr

/-- Outcome of one iteration of the rollback loop body: return a result,
throw, or run another iteration (the `continue` at line 608) carrying the
current value of the mutable `resourcesToSkip`. -/
inductive StepResult
  | finished (r : RollbackStackResult)
  | failed (e : CdkErr)
  | again (newSkip : List String)
deriving DecidableEq, Repr

/-- The skip-set computation of the forced `CONTINUE_UPDATE_ROLLBACK`
branch (lines 553-555): failed resources that are not stack events and
have no parent-stack logical ids, mapped to their logical resource id
(empty string when absent). -/
def computeSkip (resourceErrors : List ResourceEvent) : List String :=
  (resourceErrors.filter
    (fun r => !r.isStackEvent && r.parentStackLogicalIds.length == 0)).map
    (fun r => r.logicalResourceId.getD "")

/-- The final stack state inspected after the stabilization wait of
iteration `i`: the stabilized status when the wait succeeded, otherwise
the status from the lookup at the top of the iteration (`finalStackState`
is only reassigned on success, lines 583-589). -/
def iterFinalStatus (w : World) (i : Nat) : StackStatusKind :=
  match w.stabilizeOutcome i with
  | .stabilized s => s
  | _ => w.lookupStatus i

/-- The `stackErrorMessage` of iteration `i` (lines 582-599): on a
successful wait it is the joined monitor errors when non-empty (there is
no monitor in quiet mode); on a disappeared stack or a thrown wait it is
the thrown message suffixed with the monitor errors. -/
def iterStackErrorMessage (w : World) (quiet : Bool) (i : Nat) : Option String :=
  let monErrors : Option (List String) := if quiet then none else some (w.monitorErrors i)
  match w.stabilizeOutcome i with
  | .stabilized _ =>
    let errors := String.intercalate ", " (monErrors.getD [])
    if errors.isEmpty then none else some errors
  | .disappeared =>
    some (suffixWithErrors
      "Stack deploy failed (the stack disappeared while we were rolling it back)" monErrors)
  | .threw m => some (suffixWithErrors m monErrors)

/-- The monitoring-and-decision tail shared by the two mutating branches
of the loop body (lines 578-611): wait for stabilization, then return
success, loop again, or throw the per-iteration error. -/
def afterMutation (w : World) (force quiet : Bool) (deployName : String) (i : Nat)
    (resourcesToSkip : List String) (t : List ApiCall) : List ApiCall × StepResult :=
  let trace := t ++ [ApiCall.stabilizeCall deployName]
  let finalStatus := iterFinalStatus w i
  match iterStackErrorMessage w quiet i with
  | none => (trace, .finished { success := some true })
  | some m =>
    if finalStatus.isRollbackSuccess then
      (trace, .finished { success := some true })
    else if finalStatus.rollbackChoice = .CONTINUE_UPDATE_ROLLBACK ∧ force then
      (trace, .again resourcesToSkip)
    else
      (trace, .failed (.perIteration m))

/-- One iteration of the `while (maxLoops--)` body (lines 525-611):
look the stack up, switch on its rollback choice, issue the corresponding
mutating call (recomputing the skip set from the event poller under
`--force`), then monitor. -/
def rollbackIteration (w : World) (force quiet : Bool) (roleArn : Option String)
    (deployName : String) (i : Nat) (resourcesToSkip : List String) :
    List ApiCall × StepResult :=
  let status := w.lookupStatus i
  match status.rollbackChoice with
  | .NONE =>
    ([.describeStack deployName], .finished { notInRollbackableState := some true })
  | .ROLLBACK_FAILED =>
    ([.describeStack deployName], .finished { notInRollbackableState := some true })
  | .START_ROLLBACK =>
    afterMutation w force quiet deployName i resourcesToSkip
      [.describeStack deployName, .rollbackStackCall deployName roleArn true]
  | .CONTINUE_UPDATE_ROLLBACK =>
    let (tpoll, newSkip) :=
      if force then
        ([ApiCall.pollEvents deployName], computeSkip (w.pollErrors i))
      else
        ([], resourcesToSkip)
    afterMutation w force quiet deployName i newSkip
      ([.describeStack deployName] ++ tpoll ++
        [.continueUpdateRollbackCall deployName roleArn newSkip])

/-- The bounded rollback loop: `fuel` is the remaining value of
`maxLoops`, `i` the iteration counter indexing the world oracles;
exhausting the fuel throws the no-progress error (line 613). -/
def rollbackLoop (w : World) (force quiet : Bool) (roleArn : Option String)
    (deployName : String) : Nat → Nat → List String →
    List ApiCall × Except CdkErr RollbackStackResult
  | 0, _, _ => ([], .error .noProgress)
  | fuel+1, i, resourcesToSkip =>
    match rollbackIteration w force quiet roleArn deployName i resourcesToSkip with
    | (t, .finished r) => (t, .ok r)
    | (t, .failed e) => (t, .error e)
    | (t, .again newSkip) =>
      let (t2, r) := rollbackLoop w force quiet roleArn deployName fuel (i+1) newSkip
      (t ++ t2, r)

/-- The options of `Deployments.rollbackStack` consumed by the embedding. -/
structure RollbackStackOptions where
  stack : StackArtifact
  roleArn : Option String := none
  quiet : Bool := false
  force : Bool := false
  orphanLogicalIds : Option (List String) := none
  validateBootstrapStackVersion : Option Bool := none

/-- A complete `rollbackStack` run: trace, result, final instance state. -/
structure RollbackRun where
  trace : List ApiCall
  result : Except CdkErr RollbackStackResult
  state : DeploymentsState

/-- `Deployments.rollbackStack` (lines 497-614): reject `--force` combined
with explicit orphans, prepare the SDK, run the bootstrap gate against
the fixed `BOOTSTRAP_STACK_VERSION_FOR_ROLLBACK` unless the option is
explicitly disabled, then drive the loop with `maxLoops = 10`. -/
def rollbackStack (w : World) (st : DeploymentsState)
    (options : RollbackStackOptions) : RollbackRun :=
  let resourcesToSkip := options.orphanLogicalIds.getD []
  if options.force ∧ 0 < resourcesToSkip.length then
    ⟨[], .error .combineForceOrphan, st⟩
  else
    match prepareSdkFor w st options.stack options.roleArn .forWriting with
    | (t1, .error e) => ⟨t1, .error e, st⟩
    | (t1, .ok (p, st1)) =>
      let (t2, gate) :=
        if options.validateBootstrapStackVersion.getD true then
          ([ApiCall.validateVersionCall (some BOOTSTRAP_STACK_VERSION_FOR_ROLLBACK)],
           validateBootstrapStackVersion options.stack.stackName
             (some BOOTSTRAP_STACK_VERSION_FOR_ROLLBACK)
             options.stack.bootstrapStackVersionSsmParameter w.liveVersion)
        else
          ([], .ok ())
      match gate with
      | .error m => ⟨t1 ++ t2, .error (.versionMismatch m), st1⟩
      | .ok _ =>
        let deployName := options.stack.stackName
        let (t3, r) := rollbackLoop w options.force options.quiet
          p.cloudFormationRoleArn deployName 10 0 resourcesToSkip
        ⟨t1 ++ t2 ++ t3, r, st1⟩

/-- The options of `Deployments.deployStack` consumed by the embedding
(the deprecated `changeSetName`/`execute` pair and the unified
`deploymentMethod`, modelled opaquely). -/
structure DeployStackOptions where
  stack : StackArtifact
  roleArn : Option String := none
  deploymentMethod : Option String := none
  changeSetName : Option String := none
  execute : Option Bool := none

/-- A complete `deployStack` run (the delegated deployment result is
opaque). -/
structure DeployRun where
  trace : List ApiCall
  result : Except CdkErr Unit
  state : DeploymentsState

/-- JS truthiness of the deprecated `changeSetName` option (absent and
`""` are falsy). -/
def changeSetOptionTruthy : Option String → Bool
  | some s => !s.isEmpty
  | none => false

/-- `Deployments.deployStack` (lines 443-495): reject the deprecated
change-set options combined with `deploymentMethod`, prepare the SDK,
run the bootstrap gate against the declared requirement of the stack
artifact itself, then delegate to the external `deployStack` operation. -/
def deployStack (w : World) (st : DeploymentsState)
    (options : DeployStackOptions) : DeployRun :=
  if (changeSetOptionTruthy options.changeSetName || options.execute.isSome) &&
      options.deploymentMethod.isSome then
    ⟨[], .error .conflictingMethod, st⟩
  else
    match prepareSdkFor w st options.stack options.roleArn .forWriting with
    | (t1, .error e) => ⟨t1, .error e, st⟩
    | (t1, .ok (_p, st1)) =>
      match validateBootstrapStackVersion options.stack.stackName
          options.stack.requiresBootstrapStackVersion
          options.stack.bootstrapStackVersionSsmParameter w.liveVersion with
      | .error m =>
        ⟨t1 ++ [.validateVersionCall options.stack.requiresBootstrapStackVersion],
         .error (.versionMismatch m), st1⟩
      | .ok _ =>
        ⟨t1 ++ [.validateVersionCall options.stack.requiresBootstrapStackVersion,
          .delegateDeploy options.stack.stackName], .ok (), st1⟩

/-- `chalk.bold`: ANSI bold wrapping applied to the stack-name prefix. -/
def chalkBold (s : String) : String := "\x1b[1m" ++ s ++ "\x1b[22m"

/-- `Deployments.cachedPublisher` (lines 894-906): look the manifest
reference up in `publisherCache`; on a miss construct a new
`AssetPublishing` (with the bold stack-name prefix and the instance
`quiet` prop) and store it. -/
def cachedPublisher (st : DeploymentsState) (assetManifest : Nat)
    (env : Environment) (stackName : Option String) :
    Publisher × DeploymentsState :=
  match st.publisherCache.lookup assetManifest with
  | some existing => (existing, st)
  | none =>
    let msgPrefix :=
      match stackName with
      | some n => if n.isEmpty then "" else chalkBold n ++ ": "
      | none => ""
    let publisher : Publisher :=
      ⟨st.nextPublisherId, assetManifest, env, msgPrefix, st.quiet⟩
    (publisher,
     { st with
        publisherCache := (assetManifest, publisher) :: st.publisherCache
        nextPublisherId := st.nextPublisherId + 1 })

/-- Oracle for the per-entry behavior of the external `cdk-assets`
publisher (whether `hasFailures` is set after a build/publish of a given
entry, and whether an entry is already published). -/
structure AssetsWorld where
  entryBuildFails : String → Bool
  entryPublishFails : String → Bool
  entryPublished : String → Bool

/-- The options shared by the single-asset operations. -/
structure SingleAssetOptions where
  stack : StackArtifact
  roleArn : Option String := none
  stackName : Option String := none

/-- A single-asset operation run: which cached publisher instance the
operation used (`none` when it failed before reaching the cache), the
trace, the result (the boolean matters only for `isSingleAssetPublished`),
and the final instance state. -/
structure AssetRun where
  publisherUsed : Option Publisher
  trace : List ApiCall
  result : Except CdkErr Bool
  state : DeploymentsState

/-- `Deployments.buildSingleAsset` (lines 809-823): prepare the SDK, run
the bootstrap gate with the requirement declared by the asset artifact
itself, obtain the
cached publisher, build the entry and fail if the publisher accumulated
failures. -/
def buildSingleAsset (w : World) (aw : AssetsWorld) (st : DeploymentsState)
    (artifactRequiresVersion : Option Nat) (artifactSsmParam : Option String)
    (assetManifest : Nat) (assetId : String) (options : SingleAssetOptions) : AssetRun :=
  match prepareSdkFor w st options.stack options.roleArn .forWriting with
  | (t1, .error e) => ⟨none, t1, .error e, st⟩
  | (t1, .ok (p, st1)) =>
    match validateBootstrapStackVersion options.stack.stackName
        artifactRequiresVersion artifactSsmParam w.liveVersion with
    | .error m =>
      ⟨none, t1 ++ [.validateVersionCall artifactRequiresVersion],
       .error (.versionMismatch m), st1⟩
    | .ok _ =>
      let (publisher, st2) :=
        cachedPublisher st1 assetManifest p.resolvedEnvironment options.stackName
      if aw.entryBuildFails assetId then
        ⟨some publisher, t1 ++ [.validateVersionCall artifactRequiresVersion],
         .error (.assetFailed ("Failed to build asset " ++ assetId)), st2⟩
      else
        ⟨some publisher, t1 ++ [.validateVersionCall artifactRequiresVersion],
         .ok true, st2⟩

/-- `Deployments.publishSingleAsset` (lines 829-838): prepare the SDK (no
bootstrap gate — validation already happened during build), obtain the
cached publisher, publish the entry and fail if the publisher accumulated
failures. -/
def publishSingleAsset (w : World) (aw : AssetsWorld) (st : DeploymentsState)
    (assetManifest : Nat) (assetId : String) (options : SingleAssetOptions) : AssetRun :=
  match prepareSdkFor w st options.stack options.roleArn .forWriting with
  | (t1, .error e) => ⟨none, t1, .error e, st⟩
  | (t1, .ok (p, st1)) =>
    let (publisher, st2) :=
      cachedPublisher st1 assetManifest p.resolvedEnvironment options.stackName
    if aw.entryPublishFails assetId then
      ⟨some publisher, t1,
       .error (.assetFailed ("Failed to publish asset " ++ assetId)), st2⟩
    else
      ⟨some publisher, t1, .ok true, st2⟩

/-- `Deployments.isSingleAssetPublished` (lines 843-847): prepare the SDK,
obtain the cached publisher and query the entry. -/
def isSingleAssetPublished (w : World) (aw : AssetsWorld) (st : DeploymentsState)
    (assetManifest : Nat) (assetId : String) (options : SingleAssetOptions) : AssetRun :=
  match prepareSdkFor w st options.stack options.roleArn .forWriting with
  | (t1, .error e) => ⟨none, t1, .error e, st⟩
  | (t1, .ok (p, st1)) =>
    let (publisher, st2) :=
      cachedPublisher st1 assetManifest p.resolvedEnvironment options.stackName
    ⟨some publisher, t1, .ok (aw.entryPublished assetId), st2⟩

/-- Selector for the three single-asset operations. -/
inductive AssetOp
  | build
  | publish
  | isPublished
deriving DecidableEq, Repr

/-- Dispatch one of the three single-asset operations against one
`Deployments` instance state. -/
def runAssetOp (w : World) (aw : AssetsWorld) (st : DeploymentsState) (op : AssetOp)
    (artifactRequiresVersion : Option Nat) (artifactSsmParam : Option String)
    (assetManifest : Nat) (assetId : String) (options : SingleAssetOptions) : AssetRun :=
  match op with
  | .build =>
    buildSingleAsset w aw st artifactRequiresVersion artifactSsmParam
      assetManifest assetId options
  | .publish => publishSingleAsset w aw st assetManifest assetId options
  | .isPublished => isSingleAssetPublished w aw st assetManifest assetId options

/-- JS truthiness of an optional string (absent and `""` are falsy). -/
def truthyStr : Option String → Bool
  | some s => !s.isEmpty
  | none => false

/-- JS truthiness of an optional number (absent and `0` are falsy). -/
def truthyNat : Option Nat → Bool
  | some n => n != 0
  | none => false

/-- The version-mismatch message thrown inside
`prepareSdkWithLookupRoleFor` (line 747; `\x27` is an apostrophe). -/
def lookupMismatchMessage (required found : Nat) : String :=
  "Bootstrap stack version \x27" ++ toString required ++
    "\x27 is required, found version \x27" ++ toString found ++
    "\x27. To get rid of this error, please upgrade to bootstrap version >= " ++
    toString required

/-- The warning logged when the lookup-role attempt throws (line 731;
an absent ARN stringifies to `undefined` in the template literal). -/
def lookupWarning (arn : Option String) : String :=
  "Could not assume " ++ (match arn with | some s => s | none => "undefined") ++
    ", proceeding anyway."

/-- The warning logged when the lookup role was not assumed and default
credentials are used instead (lines 750-751). -/
def defaultCredsWarning (roleDeclared : Bool) : String :=
  "Lookup role " ++
    (if roleDeclared then "exists but" else "does not exist, hence") ++
    " was not assumed. Proceeding with default credentials."

/-- The value produced by `prepareSdkWithLookupRoleFor`
(`{...stackSdk, resolvedEnvironment, envResources}`). -/
structure PreparedLookup where
  sdk : Nat
  didAssumeRole : Bool
  resolvedEnvironment : Environment
deriving DecidableEq, Repr

/-- A complete `prepareSdkWithLookupRoleFor` run: the warnings it logged,
the result, and the instance state afterwards (the SDK cache is populated
even when the version check then throws). -/
structure LookupRun where
  warnings : List String
  result : Except CdkErr PreparedLookup
  state : DeploymentsState

/-- The credentials options the lookup-role path passes to the cache:
the placeholder-substituted lookup-role ARN plus the external id of the
role
and additional options. -/
def lookupCredOptions (w : World) (stack : StackArtifact) : CredentialsOptions :=
  { assumeRoleArn := w.replacePh (stack.lookupRole.map LookupRole.arn)
    assumeRoleExternalId := stack.lookupRole.bind (·.assumeRoleExternalId)
    assumeRoleAdditionalOptions := stack.lookupRole.bind (·.assumeRoleAdditionalOptions) }

/-- The cached-SDK resolution performed by the lookup-role path
(read mode, lookup-role credentials). -/
def lookupSdkResult (w : World) (st : DeploymentsState)
    (stack : StackArtifact) : CachedSdkResult :=
  cachedSdkForEnvironment w.provider st.sdkCache w.resolvedEnvironment .forReading
    (some (lookupCredOptions w stack))

/-- `Deployments.prepareSdkWithLookupRoleFor` (lines 720-768): resolve the
environment, substitute placeholders into the lookup-role ARN, resolve
the cached read-mode SDK for it; when the role was assumed and the stack
declares (truthy) lookup-role version requirement and parameter, read the
live version and throw a version mismatch when it falls short (the catch
block then logs the could-not-assume warning if a lookup role is
declared, and rethrows); when the role was not assumed, log the
default-credentials warning and return the default credentials. -/
def prepareSdkWithLookupRoleFor (w : World) (st : DeploymentsState)
    (stack : StackArtifact) : LookupRun :=
  let resolvedEnvironment := w.resolvedEnvironment
  let lookupRoleArn := w.replacePh (stack.lookupRole.map LookupRole.arn)
  let r := lookupSdkResult w st stack
  let st1 := { st with sdkCache := r.cache }
  let declaredParam := stack.lookupRole.bind (·.bootstrapStackVersionSsmParameter)
  let declaredReq := stack.lookupRole.bind (·.requiresBootstrapStackVersion)
  let prepared : PreparedLookup :=
    ⟨r.value.sdk, r.value.didAssumeRole, resolvedEnvironment⟩
  if r.value.didAssumeRole && truthyStr declaredParam && truthyNat declaredReq then
    let version := w.ssmVersion (declaredParam.getD "")
    let required := declaredReq.getD 0
    if version < required then
      ⟨if stack.lookupRole.isSome then [lookupWarning lookupRoleArn] else [],
       .error (.versionMismatch (lookupMismatchMessage required version)), st1⟩
    else
      ⟨[], .ok prepared, st1⟩
  else if !r.value.didAssumeRole then
    ⟨[defaultCredsWarning stack.lookupRole.isSome], .ok prepared, st1⟩
  else
    ⟨[], .ok prepared, st1⟩

/-! ### Cache lemmas -/

theorem lookup_cons_self {β : Type} (k : String) (v : β) (l : List (String × β)) :
    ((k, v) :: l).lookup k = some v := by
  simp [List.lookup]

/-- C5: for every (environment, access mode, credentials options) tuple,
two credential-resolution calls with identical inputs within one
`Deployments` instance return the same cached client instance and invoke
the underlying credential-resolution provider at most once; equal input
tuples always produce equal cache keys. -/
theorem cachedSdk_same_instance_single_resolution
    (provider : Environment → Mode → Option CredentialsOptions → SdkForEnvironment)
    (cache : List (String × SdkForEnvironment))
    (e1 e2 : Environment) (m1 m2 : Mode) (o1 o2 : Option CredentialsOptions)
    (h : (e1, m1, o1) = (e2, m2, o2)) :
    cacheKeyFor e1 m1 o1 = cacheKeyFor e2 m2 o2 ∧
    (cachedSdkForEnvironment provider
        (cachedSdkForEnvironment provider cache e1 m1 o1).cache e2 m2 o2).value =
      (cachedSdkForEnvironment provider cache e1 m1 o1).value ∧
    ((if (cachedSdkForEnvironment provider cache e1 m1 o1).providerInvoked then 1 else 0) +
     (if (cachedSdkForEnvironment provider
        (cachedSdkForEnvironment provider cache e1 m1 o1).cache e2 m2 o2).providerInvoked
      then 1 else 0)) ≤ 1 := by
  obtain ⟨rfl, rfl, rfl⟩ : e1 = e2 ∧ m1 = m2 ∧ o1 = o2 := by
    injection h with h1 h2
    injection h2 with h2 h3
    exact ⟨h1, h2, h3⟩
  refine ⟨rfl, ?_⟩
  unfold cachedSdkForEnvironment
  cases hl : cache.lookup (cacheKeyFor e1 m1 o1) with
  | some existing => simp [hl]
  | none => simp [hl, lookup_cons_self]

theorem cachedSdk_witness :
    ((⟨"a", "r"⟩, Mode.forWriting, (none : Option CredentialsOptions)) =
      ((⟨"a", "r"⟩ : Environment), Mode.forWriting, (none : Option CredentialsOptions))) ∧
    (cacheKeyFor ⟨"a", "r"⟩ .forWriting none = cacheKeyFor ⟨"a", "r"⟩ .forWriting none ∧
     (cachedSdkForEnvironment (fun _ _ _ => ⟨5, true⟩)
        (cachedSdkForEnvironment (fun _ _ _ => ⟨5, true⟩) [] ⟨"a", "r"⟩ .forWriting none).cache
        ⟨"a", "r"⟩ .forWriting none).value =
      (cachedSdkForEnvironment (fun _ _ _ => ⟨5, true⟩) [] ⟨"a", "r"⟩ .forWriting none).value ∧
     ((if (cachedSdkForEnvironment (fun _ _ _ => ⟨5, true⟩) [] ⟨"a", "r"⟩ .forWriting none).providerInvoked then 1 else 0) +
      (if (cachedSdkForEnvironment (fun _ _ _ => ⟨5, true⟩)
          (cachedSdkForEnvironment (fun _ _ _ => ⟨5, true⟩) [] ⟨"a", "r"⟩ .forWriting none).cache
          ⟨"a", "r"⟩ .forWriting none).providerInvoked
       then 1 else 0)) ≤ 1) :=
  ⟨rfl, cachedSdk_same_instance_single_resolution (fun _ _ _ => ⟨5, true⟩) []
    ⟨"a", "r"⟩ ⟨"a", "r"⟩ .forWriting .forWriting none none rfl⟩

theorem lookup_cons_self_nat {β : Type} (k : Nat) (v : β) (l : List (Nat × β)) :
    ((k, v) :: l).lookup k = some v := by
  simp [List.lookup]

theorem lookup_cons_ne_nat {β : Type} (k a : Nat) (v : β) (l : List (Nat × β))
    (h : ¬ k = a) : ((a, v) :: l).lookup k = l.lookup k := by
  have hb : (k == a) = false := by simp [h]
  simp [List.lookup, hb]

theorem cachedPublisher_lookup_self (st : DeploymentsState) (a : Nat)
    (env : Environment) (n : Option String) :
    ((cachedPublisher st a env n).2).publisherCache.lookup a =
      some (cachedPublisher st a env n).1 := by
  unfold cachedPublisher
  cases hl : st.publisherCache.lookup a with
  | some p => simp [hl]
  | none => simp [hl, lookup_cons_self_nat]

theorem cachedPublisher_preserves (st : DeploymentsState) (a : Nat)
    (env : Environment) (n : Option String) (k : Nat) (q : Publisher)
    (h : st.publisherCache.lookup k = some q) :
    ((cachedPublisher st a env n).2).publisherCache.lookup k = some q := by
  unfold cachedPublisher
  cases hl : st.publisherCache.lookup a with
  | some p => simpa [hl]
  | none =>
    by_cases hk : k = a
    · subst hk; rw [h] at hl; exact absurd hl (by simp)
    · simpa [hl, lookup_cons_ne_nat _ _ _ _ hk]

theorem cachedPublisher_hit (st : DeploymentsState) (a : Nat)
    (env : Environment) (n : Option String) (p : Publisher)
    (h : st.publisherCache.lookup a = some p) :
    cachedPublisher st a env n = (p, st) := by
  unfold cachedPublisher
  rw [h]

theorem prepareSdkFor_ok_state (w : World) (st : DeploymentsState)
    (stack : StackArtifact) (roleArn : Option String) (mode : Mode)
    (t : List ApiCall) (p : PreparedSdk) (st' : DeploymentsState)
    (h : prepareSdkFor w st stack roleArn mode = (t, .ok (p, st'))) :
    st'.publisherCache = st.publisherCache ∧
    st'.nextPublisherId = st.nextPublisherId ∧ st'.quiet = st.quiet := by
  unfold prepareSdkFor at h
  cases henv : stack.environment <;> rw [henv] at h
  · exact absurd h (by simp)
  · simp only [Prod.mk.injEq, Except.ok.injEq] at h
    obtain ⟨-, -, rfl⟩ := h
    exact ⟨rfl, rfl, rfl⟩

/-- Shared spec of the publisher-cache behavior of one single-asset
operation: the used publisher ends up bound to the manifest key, existing
bindings are preserved, and a pre-existing binding is the one used. -/
def PublisherSpec (st : DeploymentsState) (a : Nat) (run : AssetRun) : Prop :=
  (∀ p, run.publisherUsed = some p →
    run.state.publisherCache.lookup a = some p) ∧
  (∀ k q, st.publisherCache.lookup k = some q →
    run.state.publisherCache.lookup k = some q) ∧
  (∀ p p', st.publisherCache.lookup a = some p →
    run.publisherUsed = some p' → p' = p)

theorem publisherSpec_of_cachedPublisher (st st1 st2 : DeploymentsState)
    (a : Nat) (env : Environment) (n : Option String) (pub : Publisher)
    (hpc : st1.publisherCache = st.publisherCache)
    (hcp : cachedPublisher st1 a env n = (pub, st2))
    (run : AssetRun)
    (hused : run.publisherUsed = some pub)
    (hstate : run.state = st2) :
    PublisherSpec st a run := by
  refine ⟨?_, ?_, ?_⟩
  · intro p hp
    rw [hused] at hp
    injection hp with hp
    have h := cachedPublisher_lookup_self st1 a env n
    rw [hcp] at h
    rw [hstate, ← hp]
    exact h
  · intro k q hq
    have hq1 : st1.publisherCache.lookup k = some q := by rw [hpc]; exact hq
    have h := cachedPublisher_preserves st1 a env n k q hq1
    rw [hcp] at h
    rw [hstate]
    exact h
  · intro p p' hp hp'
    have hp1 : st1.publisherCache.lookup a = some p := by rw [hpc]; exact hp
    have h := cachedPublisher_hit st1 a env n p hp1
    rw [h] at hcp
    rw [hused] at hp'
    injection hp' with hp'
    injection hcp with h1 h2
    rw [← hp', ← h1]

theorem buildSingleAsset_publisherSpec (w : World) (aw : AssetsWorld)
    (st : DeploymentsState) (v : Option Nat) (s : Option String) (a : Nat)
    (i : String) (o : SingleAssetOptions) :
    PublisherSpec st a (buildSingleAsset w aw st v s a i o) := by
  unfold buildSingleAsset
  rcases hps : prepareSdkFor w st o.stack o.roleArn .forWriting with ⟨t1, res⟩
  cases res with
  | error e =>
    exact ⟨fun p hp => absurd hp (by simp), fun k q hq => hq,
      fun p p' hp hp' => absurd hp' (by simp)⟩
  | ok pr =>
    rcases pr with ⟨pp, st1⟩
    obtain ⟨hpc, -, -⟩ :=
      prepareSdkFor_ok_state w st o.stack o.roleArn .forWriting t1 pp st1 hps
    cases hv : validateBootstrapStackVersion o.stack.stackName v s w.liveVersion with
    | error m =>
      refine ⟨fun p hp => absurd hp (by simp [hv]), fun k q hq => ?_,
        fun p p' hp hp' => absurd hp' (by simp [hv])⟩
      simp only [hv]
      rw [hpc]
      exact hq
    | ok u =>
      rcases hcp : cachedPublisher st1 a pp.resolvedEnvironment o.stackName with ⟨pub, st2⟩
      by_cases hb : aw.entryBuildFails i
      · exact publisherSpec_of_cachedPublisher st st1 st2 a pp.resolvedEnvironment
          o.stackName pub hpc hcp _ (by simp [hv, hcp, hb]) (by simp [hv, hcp, hb])
      · exact publisherSpec_of_cachedPublisher st st1 st2 a pp.resolvedEnvironment
          o.stackName pub hpc hcp _ (by simp [hv, hcp, hb]) (by simp [hv, hcp, hb])

theorem publishSingleAsset_publisherSpec (w : World) (aw : AssetsWorld)
    (st : DeploymentsState) (a : Nat) (i : String) (o : SingleAssetOptions) :
    PublisherSpec st a (publishSingleAsset w aw st a i o) := by
  unfold publishSingleAsset
  rcases hps : prepareSdkFor w st o.stack o.roleArn .forWriting with ⟨t1, res⟩
  cases res with
  | error e =>
    exact ⟨fun p hp => absurd hp (by simp), fun k q hq => hq,
      fun p p' hp hp' => absurd hp' (by simp)⟩
  | ok pr =>
    rcases pr with ⟨pp, st1⟩
    obtain ⟨hpc, -, -⟩ :=
      prepareSdkFor_ok_state w st o.stack o.roleArn .forWriting t1 pp st1 hps
    rcases hcp : cachedPublisher st1 a pp.resolvedEnvironment o.stackName with ⟨pub, st2⟩
    by_cases hb : aw.entryPublishFails i
    · exact publisherSpec_of_cachedPublisher st st1 st2 a pp.resolvedEnvironment
        o.stackName pub hpc hcp _ (by simp [hcp, hb]) (by simp [hcp, hb])
    · exact publisherSpec_of_cachedPublisher st st1 st2 a pp.resolvedEnvironment
        o.stackName pub hpc hcp _ (by simp [hcp, hb]) (by simp [hcp, hb])

theorem isSingleAssetPublished_publisherSpec (w : World) (aw : AssetsWorld)
    (st : DeploymentsState) (a : Nat) (i : String) (o : SingleAssetOptions) :
    PublisherSpec st a (isSingleAssetPublished w aw st a i o) := by
  unfold isSingleAssetPublished
  rcases hps : prepareSdkFor w st o.stack o.roleArn .forWriting with ⟨t1, res⟩
  cases res with
  | error e =>
    exact ⟨fun p hp => absurd hp (by simp), fun k q hq => hq,
      fun p p' hp hp' => absurd hp' (by simp)⟩
  | ok pr =>
    rcases pr with ⟨pp, st1⟩
    obtain ⟨hpc, -, -⟩ :=
      prepareSdkFor_ok_state w st o.stack o.roleArn .forWriting t1 pp st1 hps
    rcases hcp : cachedPublisher st1 a pp.resolvedEnvironment o.stackName with ⟨pub, st2⟩
    exact publisherSpec_of_cachedPublisher st st1 st2 a pp.resolvedEnvironment
      o.stackName pub hpc hcp _ (by simp [hcp]) (by simp [hcp])

theorem runAssetOp_publisherSpec (w : World) (aw : AssetsWorld)
    (st : DeploymentsState) (op : AssetOp) (v : Option Nat) (s : Option String)
    (a : Nat) (i : String) (o : SingleAssetOptions) :
    PublisherSpec st a (runAssetOp w aw st op v s a i o) := by
  cases op with
  | build => exact buildSingleAsset_publisherSpec w aw st v s a i o
  | publish => exact publishSingleAsset_publisherSpec w aw st a i o
  | isPublished => exact isSingleAssetPublished_publisherSpec w aw st a i o

/-- C6: any two of `buildSingleAsset`, `publishSingleAsset` and
`isSingleAssetPublished` invoked against the same manifest reference on
one `Deployments` instance operate on the same publisher instance; the
publisher is created on first use (the first operation leaves it bound to
the manifest key) and no binding of the publisher cache is ever replaced
or evicted within the run. -/
theorem assetOps_share_publisher (w : World) (aw : AssetsWorld)
    (st : DeploymentsState) (op1 op2 : AssetOp)
    (v1 v2 : Option Nat) (s1 s2 : Option String) (manifest : Nat)
    (i1 i2 : String) (o1 o2 : SingleAssetOptions) (p1 p2 : Publisher)
    (h1 : (runAssetOp w aw st op1 v1 s1 manifest i1 o1).publisherUsed = some p1)
    (h2 : (runAssetOp w aw (runAssetOp w aw st op1 v1 s1 manifest i1 o1).state
      op2 v2 s2 manifest i2 o2).publisherUsed = some p2) :
    p2 = p1 ∧
    (runAssetOp w aw st op1 v1 s1 manifest i1 o1).state.publisherCache.lookup manifest
      = some p1 ∧
    (∀ k q, st.publisherCache.lookup k = some q →
      (runAssetOp w aw (runAssetOp w aw st op1 v1 s1 manifest i1 o1).state
        op2 v2 s2 manifest i2 o2).state.publisherCache.lookup k = some q) := by
  obtain ⟨hu1, hp1, -⟩ := runAssetOp_publisherSpec w aw st op1 v1 s1 manifest i1 o1
  obtain ⟨-, hp2, hh2⟩ := runAssetOp_publisherSpec w aw
    (runAssetOp w aw st op1 v1 s1 manifest i1 o1).state op2 v2 s2 manifest i2 o2
  have hbound := hu1 p1 h1
  refine ⟨hh2 p1 p2 hbound h2, hbound, ?_⟩
  intro k q hq
  exact hp2 k q (hp1 k q hq)

/-- A concrete oracle used by the witness theorems. -/
def wSample : World where
  resolvedEnvironment := ⟨"a", "r"⟩
  replacePh := id
  provider := fun _ _ _ => ⟨1, true⟩
  liveVersion := 25
  ssmVersion := fun _ => 25
  lookupStatus := fun _ => .stable
  pollErrors := fun _ => []
  stabilizeOutcome := fun _ => .stabilized .stable
  monitorErrors := fun _ => []

/-- A concrete assets oracle used by the witness theorems. -/
def awSample : AssetsWorld where
  entryBuildFails := fun _ => false
  entryPublishFails := fun _ => false
  entryPublished := fun _ => true

/-- A concrete stack artifact used by the witness theorems. -/
def stackSample : StackArtifact :=
  { stackName := "S", environment := some ⟨"a", "r"⟩ }

/-- Concrete single-asset options used by the witness theorems. -/
def oSample : SingleAssetOptions := { stack := stackSample }

/-- The publisher the sample build creates. -/
def pubSample : Publisher := ⟨0, 0, ⟨"a", "r"⟩, "", false⟩

theorem assetOps_share_publisher_witness :
    (runAssetOp wSample awSample {} .build none none 0 "asset" oSample).publisherUsed
      = some pubSample ∧
    (runAssetOp wSample awSample
      (runAssetOp wSample awSample {} .build none none 0 "asset" oSample).state
      AssetOp.publish none none 0 "asset" oSample).publisherUsed = some pubSample ∧
    (pubSample = pubSample ∧
     (runAssetOp wSample awSample {} .build none none 0
       "asset" oSample).state.publisherCache.lookup 0 = some pubSample ∧
     (∀ k q, (({} : DeploymentsState)).publisherCache.lookup k = some q →
       (runAssetOp wSample awSample
         (runAssetOp wSample awSample {} .build none none 0 "asset" oSample).state
         AssetOp.publish none none 0 "asset" oSample).state.publisherCache.lookup k = some q)) :=
  ⟨rfl, rfl,
    assetOps_share_publisher wSample awSample {} .build .publish none none none none 0
      "asset" "asset" oSample oSample pubSample pubSample rfl rfl⟩

/-! ### Rollback loop lemmas -/

theorem rollbackLoop_succ (w : World) (force quiet : Bool) (ra : Option String)
    (dn : String) (fuel i : Nat) (skip : List String) :
    rollbackLoop w force quiet ra dn (fuel+1) i skip =
      match rollbackIteration w force quiet ra dn i skip with
      | (t, .finished r) => (t, .ok r)
      | (t, .failed e) => (t, .error e)
      | (t, .again newSkip) =>
        let (t2, r) := rollbackLoop w force quiet ra dn fuel (i+1) newSkip
        (t ++ t2, r) := rfl

theorem rollbackLoop_finishes_first (w : World) (force quiet : Bool)
    (ra : Option String) (dn : String) (fuel i : Nat) (skip : List String)
    (hchoice : (w.lookupStatus i).rollbackChoice = .NONE ∨
      (w.lookupStatus i).rollbackChoice = .ROLLBACK_FAILED) :
    rollbackLoop w force quiet ra dn (fuel+1) i skip =
      ([.describeStack dn], .ok { notInRollbackableState := some true }) := by
  rw [rollbackLoop_succ]
  cases hchoice with
  | inl h => simp [rollbackIteration, h]
  | inr h => simp [rollbackIteration, h]

theorem gate_ok_of_le (name : String) (p : Option String) (live : Nat)
    (h : BOOTSTRAP_STACK_VERSION_FOR_ROLLBACK ≤ live) :
    validateBootstrapStackVersion name (some BOOTSTRAP_STACK_VERSION_FOR_ROLLBACK)
      p live = .ok () := by
  unfold validateBootstrapStackVersion envValidateVersion
  have hn : ¬ live < BOOTSTRAP_STACK_VERSION_FOR_ROLLBACK := by omega
  simp [hn]

/-- C9: when the force option is true and the explicit orphan list is
non-empty, `rollbackStack` fails immediately with the
cannot-combine-force-with-orphan error, with an empty call trace (so
before any credential resolution, bootstrap-gate check or mutating call)
and the instance state untouched. -/
theorem rollbackStack_force_orphan_conflict (w : World) (st : DeploymentsState)
    (options : RollbackStackOptions)
    (hf : options.force = true)
    (ho : 0 < (options.orphanLogicalIds.getD []).length) :
    (rollbackStack w st options).result = .error .combineForceOrphan ∧
    (rollbackStack w st options).trace = [] ∧
    (rollbackStack w st options).state = st := by
  unfold rollbackStack
  rw [if_pos ⟨hf, ho⟩]
  exact ⟨rfl, rfl, rfl⟩

/-- Concrete conflicting rollback options used by the C9 witness. -/
def optsConflict : RollbackStackOptions :=
  { stack := stackSample, force := true, orphanLogicalIds := some ["A"] }

theorem rollbackStack_force_orphan_conflict_witness :
    optsConflict.force = true ∧
    0 < (optsConflict.orphanLogicalIds.getD []).length ∧
    (rollbackStack wSample {} optsConflict).result = .error .combineForceOrphan ∧
    (rollbackStack wSample {} optsConflict).trace = [] :=
  ⟨rfl, by decide,
   (rollbackStack_force_orphan_conflict wSample {} optsConflict rfl (by decide)).1,
   (rollbackStack_force_orphan_conflict wSample {} optsConflict rfl (by decide)).2.1⟩

theorem prepareSdkFor_some (w : World) (st : DeploymentsState)
    (stack : StackArtifact) (roleArn : Option String) (mode : Mode)
    (env : Environment) (henv : stack.environment = some env) :
    ∃ (k : String) (p : PreparedSdk) (st1 : DeploymentsState),
      prepareSdkFor w st stack roleArn mode = ([ApiCall.resolveCreds k], .ok (p, st1)) := by
  unfold prepareSdkFor
  rw [henv]
  exact ⟨_, _, _, rfl⟩

/-- C1: for every rollback invocation that reaches the status poll (the
force/orphan precheck, environment check and bootstrap gate pass) and
whose polled rollback choice is `NONE` (already stable) or
`ROLLBACK_FAILED` (terminal failed rollback), `rollbackStack` returns the
structured result `{notInRollbackableState: true}` and issues zero
mutating calls. -/
theorem rollbackStack_not_rollbackable (w : World) (st : DeploymentsState)
    (options : RollbackStackOptions) (env : Environment)
    (hpre : ¬ (options.force ∧ 0 < (options.orphanLogicalIds.getD []).length))
    (henv : options.stack.environment = some env)
    (hgate : options.validateBootstrapStackVersion.getD true = true →
      BOOTSTRAP_STACK_VERSION_FOR_ROLLBACK ≤ w.liveVersion)
    (hchoice : (w.lookupStatus 0).rollbackChoice = .NONE ∨
      (w.lookupStatus 0).rollbackChoice = .ROLLBACK_FAILED) :
    (rollbackStack w st options).result = .ok { notInRollbackableState := some true } ∧
    mutatingCalls (rollbackStack w st options).trace = [] := by
  obtain ⟨k, p, st1, hps⟩ :=
    prepareSdkFor_some w st options.stack options.roleArn .forWriting env henv
  unfold rollbackStack
  rw [if_neg hpre, hps]
  dsimp only
  by_cases hvo : options.validateBootstrapStackVersion.getD true = true
  · rw [if_pos hvo,
      gate_ok_of_le options.stack.stackName options.stack.bootstrapStackVersionSsmParameter
        w.liveVersion (hgate hvo)]
    dsimp only
    rw [show (10 : Nat) = 9 + 1 from rfl,
      rollbackLoop_finishes_first w options.force options.quiet _ _ 9 0 _ hchoice]
    exact ⟨rfl, by simp [mutatingCalls, ApiCall.isMutating]⟩
  · rw [if_neg hvo]
    dsimp only
    rw [show (10 : Nat) = 9 + 1 from rfl,
      rollbackLoop_finishes_first w options.force options.quiet _ _ 9 0 _ hchoice]
    exact ⟨rfl, by simp [mutatingCalls, ApiCall.isMutating]⟩

/-- Whether a call is the per-iteration stack lookup. -/
def ApiCall.isDescribe : ApiCall → Bool
  | .describeStack _ => true
  | _ => false

/-- Number of loop iterations witnessed by a trace (one stack lookup
happens per iteration, at its top). -/
def countIterations (t : List ApiCall) : Nat :=
  (t.filter ApiCall.isDescribe).length

theorem countIterations_append (a b : List ApiCall) :
    countIterations (a ++ b) = countIterations a + countIterations b := by
  simp [countIterations, List.filter_append]

theorem afterMutation_trace (w : World) (force quiet : Bool) (dn : String)
    (i : Nat) (skip : List String) (t : List ApiCall) :
    (afterMutation w force quiet dn i skip t).1 = t ++ [ApiCall.stabilizeCall dn] := by
  unfold afterMutation
  cases iterStackErrorMessage w quiet i with
  | none => rfl
  | some m =>
    dsimp only
    split
    · rfl
    · split <;> rfl

theorem rollbackIteration_one_describe (w : World) (force quiet : Bool)
    (ra : Option String) (dn : String) (i : Nat) (skip : List String) :
    countIterations (rollbackIteration w force quiet ra dn i skip).1 = 1 := by
  unfold rollbackIteration
  dsimp only
  cases (w.lookupStatus i).rollbackChoice with
  | NONE => simp [countIterations, ApiCall.isDescribe]
  | ROLLBACK_FAILED => simp [countIterations, ApiCall.isDescribe]
  | START_ROLLBACK =>
    dsimp only
    rw [afterMutation_trace]
    simp [countIterations, ApiCall.isDescribe]
  | CONTINUE_UPDATE_ROLLBACK =>
    dsimp only
    by_cases hf : force = true <;>
      simp [hf, afterMutation_trace, countIterations, ApiCall.isDescribe]

theorem rollbackLoop_count_le (w : World) (force quiet : Bool) (ra : Option String)
    (dn : String) : ∀ (fuel i : Nat) (skip : List String),
    countIterations (rollbackLoop w force quiet ra dn fuel i skip).1 ≤ fuel := by
  intro fuel
  induction fuel with
  | zero => intro i skip; simp [rollbackLoop, countIterations]
  | succ n ih =>
    intro i skip
    rw [rollbackLoop_succ]
    rcases hit : rollbackIteration w force quiet ra dn i skip with ⟨t, s⟩
    have hone : countIterations t = 1 := by
      have h := rollbackIteration_one_describe w force quiet ra dn i skip
      rw [hit] at h
      exact h
    cases s with
    | finished r => dsimp only; omega
    | failed e => dsimp only; omega
    | again ns =>
      rcases hl : rollbackLoop w force quiet ra dn n (i+1) ns with ⟨t2, r⟩
      dsimp only
      rw [hl]
      dsimp only
      rw [countIterations_append, hone]
      have h2 := ih (i+1) ns
      rw [hl] at h2
      dsimp only at h2
      omega

theorem prepareSdkFor_no_describe (w : World) (st : DeploymentsState)
    (stack : StackArtifact) (roleArn : Option String) (mode : Mode) :
    countIterations (prepareSdkFor w st stack roleArn mode).1 = 0 := by
  unfold prepareSdkFor
  cases stack.environment <;> simp [countIterations, ApiCall.isDescribe]

theorem noProgress_ne_perIteration (m : String) :
    CdkErr.message .noProgress ≠ CdkErr.message (.perIteration m) := by
  intro h
  have hd : (CdkErr.message CdkErr.noProgress).data.getLast?
      = (CdkErr.message (CdkErr.perIteration m)).data.getLast? := by rw [h]
  rw [show CdkErr.message (CdkErr.perIteration m)
      = m ++ " (fix problem and retry, or orphan these resources using --orphan or --force)"
      from rfl] at hd
  rw [String.data_append] at hd
  rw [List.getLast?_append_of_ne_nil _ (by decide)] at hd
  exact absurd hd (by decide)

theorem rollbackStack_not_rollbackable_witness :
    (rollbackStack wSample {} { stack := stackSample }).result
      = .ok { notInRollbackableState := some true } ∧
    mutatingCalls (rollbackStack wSample {} { stack := stackSample }).trace = [] :=
  rollbackStack_not_rollbackable wSample {} { stack := stackSample } ⟨"a", "r"⟩
    (by decide) rfl (fun _ => by decide) (Or.inl rfl)

/-- C2: for every input, the `rollbackStack` loop executes at most 10
iterations (the trace never contains more than 10 per-iteration stack
lookups); an exhausted bound yields the fatal no-progress error (the
fuel-0 loop value), whose message differs from every per-iteration error
message. -/
theorem rollbackStack_iteration_bound (w : World) (st : DeploymentsState)
    (options : RollbackStackOptions) :
    countIterations (rollbackStack w st options).trace ≤ 10 ∧
    (∀ (f q : Bool) (ra : Option String) (dn : String) (i : Nat) (skip : List String),
      rollbackLoop w f q ra dn 0 i skip = ([], .error .noProgress)) ∧
    (∀ m, CdkErr.message .noProgress ≠ CdkErr.message (.perIteration m)) := by
  refine ⟨?_, fun f q ra dn i skip => rfl, noProgress_ne_perIteration⟩
  unfold rollbackStack
  dsimp only
  by_cases hpre : options.force = true ∧ 0 < (options.orphanLogicalIds.getD []).length
  · rw [if_pos hpre]
    simp [countIterations]
  · rw [if_neg hpre]
    rcases hps : prepareSdkFor w st options.stack options.roleArn .forWriting with ⟨t1, res⟩
    have ht1 : countIterations t1 = 0 := by
      have h := prepareSdkFor_no_describe w st options.stack options.roleArn .forWriting
      rw [hps] at h
      exact h
    cases res with
    | error e => dsimp only; omega
    | ok pr =>
      rcases pr with ⟨p, st1⟩
      dsimp only
      by_cases hvo : options.validateBootstrapStackVersion.getD true = true
      · rw [if_pos hvo]
        dsimp only
        cases hv : validateBootstrapStackVersion options.stack.stackName
            (some BOOTSTRAP_STACK_VERSION_FOR_ROLLBACK)
            options.stack.bootstrapStackVersionSsmParameter w.liveVersion with
        | error m =>
          dsimp only
          rw [countIterations_append]
          have hvc : countIterations [ApiCall.validateVersionCall
              (some BOOTSTRAP_STACK_VERSION_FOR_ROLLBACK)] = 0 := by
            simp [countIterations, ApiCall.isDescribe]
          omega
        | ok u =>
          dsimp only
          rcases hl : rollbackLoop w options.force options.quiet p.cloudFormationRoleArn
              options.stack.stackName 10 0 (options.orphanLogicalIds.getD []) with ⟨t3, r⟩
          dsimp only
          have h3 := rollbackLoop_count_le w options.force options.quiet
            p.cloudFormationRoleArn options.stack.stackName 10 0
            (options.orphanLogicalIds.getD [])
          rw [hl] at h3
          dsimp only at h3
          rw [countIterations_append, countIterations_append]
          have ht2 : countIterations [ApiCall.validateVersionCall
              (some BOOTSTRAP_STACK_VERSION_FOR_ROLLBACK)] = 0 := by
            simp [countIterations, ApiCall.isDescribe]
          omega
      · rw [if_neg hvo]
        dsimp only
        rcases hl : rollbackLoop w options.force options.quiet p.cloudFormationRoleArn
            options.stack.stackName 10 0 (options.orphanLogicalIds.getD []) with ⟨t3, r⟩
        dsimp only
        have h3 := rollbackLoop_count_le w options.force options.quiet
          p.cloudFormationRoleArn options.stack.stackName 10 0
          (options.orphanLogicalIds.getD [])
        rw [hl] at h3
        dsimp only at h3
        rw [countIterations_append, countIterations_append]
        have ht2 : countIterations ([] : List ApiCall) = 0 := by
          simp [countIterations]
        omega

/-! ### Status-kind derivation lemmas -/

theorem isRollbackSuccess_choice (s : StackStatusKind)
    (h : s.isRollbackSuccess = true) : s.rollbackChoice = .NONE := by
  cases s <;> simp_all [StackStatusKind.isRollbackSuccess, StackStatusKind.rollbackChoice]

theorem choice_continue_kind (s : StackStatusKind)
    (h : s.rollbackChoice = .CONTINUE_UPDATE_ROLLBACK) : s = .updateRollbackFailed := by
  cases s <;> simp_all [StackStatusKind.rollbackChoice]

theorem iterStackErrorMessage_threw (w : World) (quiet : Bool) (i : Nat) (msg : String)
    (h : w.stabilizeOutcome i = .threw msg) :
    iterStackErrorMessage w quiet i =
      some (suffixWithErrors msg (if quiet then none else some (w.monitorErrors i))) := by
  unfold iterStackErrorMessage
  rw [h]

theorem iterFinalStatus_threw (w : World) (i : Nat) (msg : String)
    (h : w.stabilizeOutcome i = .threw msg) :
    iterFinalStatus w i = w.lookupStatus i := by
  unfold iterFinalStatus
  rw [h]

theorem rollbackLoop_fails_first (w : World) (force quiet : Bool) (ra : Option String)
    (dn : String) (fuel i : Nat) (skip : List String) (m : String)
    (hchoice : (w.lookupStatus i).rollbackChoice = .CONTINUE_UPDATE_ROLLBACK)
    (hforce : force = false)
    (hmsg : iterStackErrorMessage w quiet i = some m)
    (hfs : (iterFinalStatus w i).isRollbackSuccess = false) :
    rollbackLoop w force quiet ra dn (fuel+1) i skip =
      ([.describeStack dn, .continueUpdateRollbackCall dn ra skip, .stabilizeCall dn],
       .error (.perIteration m)) := by
  rw [rollbackLoop_succ]
  unfold rollbackIteration
  dsimp only
  rw [hchoice, hforce]
  unfold afterMutation
  rw [hmsg]
  dsimp only
  rw [hfs]
  simp

theorem afterMutation_again_iff (w : World) (force quiet : Bool) (dn : String)
    (i : Nat) (ns : List String) (t : List ApiCall) (m : String)
    (hmsg : iterStackErrorMessage w quiet i = some m) :
    (∃ ns2, (afterMutation w force quiet dn i ns t).2 = .again ns2) ↔
      ((iterFinalStatus w i).rollbackChoice = .CONTINUE_UPDATE_ROLLBACK ∧
        force = true) := by
  unfold afterMutation
  rw [hmsg]
  dsimp only
  by_cases hs : (iterFinalStatus w i).isRollbackSuccess = true
  · rw [if_pos hs]
    constructor
    · rintro ⟨ns2, hn⟩
      exact absurd hn (by simp)
    · rintro ⟨hc, -⟩
      rw [isRollbackSuccess_choice _ hs] at hc
      exact absurd hc (by simp)
  · rw [if_neg hs]
    by_cases hcf : (iterFinalStatus w i).rollbackChoice = RollbackChoice.CONTINUE_UPDATE_ROLLBACK
        ∧ force = true
    · rw [if_pos hcf]
      exact ⟨fun _ => hcf, fun _ => ⟨ns, rfl⟩⟩
    · rw [if_neg hcf]
      constructor
      · rintro ⟨ns2, hn⟩
        exact absurd hn (by simp)
      · intro hc
        exact absurd hc hcf

theorem rollbackIteration_again_iff (w : World) (force quiet : Bool)
    (ra : Option String) (dn : String) (i : Nat) (skip : List String) (m : String)
    (hmut : (w.lookupStatus i).rollbackChoice = .START_ROLLBACK ∨
      (w.lookupStatus i).rollbackChoice = .CONTINUE_UPDATE_ROLLBACK)
    (hmsg : iterStackErrorMessage w quiet i = some m) :
    (∃ ns, (rollbackIteration w force quiet ra dn i skip).2 = .again ns) ↔
      ((iterFinalStatus w i).rollbackChoice = .CONTINUE_UPDATE_ROLLBACK ∧
        force = true) := by
  unfold rollbackIteration
  dsimp only
  cases hmut with
  | inl h =>
    rw [h]
    exact afterMutation_again_iff w force quiet dn i skip _ m hmsg
  | inr h =>
    rw [h]
    dsimp only
    rcases hpoll : (if force = true then ([ApiCall.pollEvents dn], computeSkip (w.pollErrors i))
        else ([], skip)) with ⟨tpoll, ns⟩
    exact afterMutation_again_iff w force quiet dn i ns _ m hmsg

/-- C3: after a mutating rollback call, when the stabilization wait fails
or reports errors (`stackErrorMessage` is set), the loop body iterates
again if and only if the rollback choice of the final stack status is
`CONTINUE_UPDATE_ROLLBACK` and force is enabled; in particular, with
force disabled and the wait always failing on a stack stuck in
`CONTINUE_UPDATE_ROLLBACK`, `rollbackStack` raises the fatal
per-iteration error after exactly one iteration. -/
theorem rollback_retry_iff_continue_and_force :
    (∀ (w : World) (force quiet : Bool) (ra : Option String) (dn : String)
        (i : Nat) (skip : List String) (m : String),
      ((w.lookupStatus i).rollbackChoice = .START_ROLLBACK ∨
        (w.lookupStatus i).rollbackChoice = .CONTINUE_UPDATE_ROLLBACK) →
      iterStackErrorMessage w quiet i = some m →
      ((∃ ns, (rollbackIteration w force quiet ra dn i skip).2 = .again ns) ↔
        ((iterFinalStatus w i).rollbackChoice = .CONTINUE_UPDATE_ROLLBACK ∧
          force = true))) ∧
    (∀ (w : World) (st : DeploymentsState) (options : RollbackStackOptions)
        (env : Environment) (msg : String),
      options.stack.environment = some env →
      (options.validateBootstrapStackVersion.getD true = true →
        BOOTSTRAP_STACK_VERSION_FOR_ROLLBACK ≤ w.liveVersion) →
      options.force = false →
      (w.lookupStatus 0).rollbackChoice = .CONTINUE_UPDATE_ROLLBACK →
      w.stabilizeOutcome 0 = .threw msg →
      ((∃ m, (rollbackStack w st options).result = .error (.perIteration m)) ∧
       countIterations (rollbackStack w st options).trace = 1)) := by
  constructor
  · exact rollbackIteration_again_iff
  · intro w st options env msg henv hgate hforce hchoice hstab
    have hpre : ¬ (options.force = true ∧ 0 < (options.orphanLogicalIds.getD []).length) := by
      simp [hforce]
    obtain ⟨k, p, st1, hps⟩ :=
      prepareSdkFor_some w st options.stack options.roleArn .forWriting env henv
    have hmsg := iterStackErrorMessage_threw w options.quiet 0 msg hstab
    have hfs : (iterFinalStatus w 0).isRollbackSuccess = false := by
      rw [iterFinalStatus_threw w 0 msg hstab, choice_continue_kind _ hchoice]
      rfl
    have hloop := rollbackLoop_fails_first w options.force options.quiet
      p.cloudFormationRoleArn options.stack.stackName 9 0
      (options.orphanLogicalIds.getD []) _ hchoice hforce hmsg hfs
    unfold rollbackStack
    rw [if_neg hpre, hps]
    dsimp only
    by_cases hvo : options.validateBootstrapStackVersion.getD true = true
    · rw [if_pos hvo, gate_ok_of_le options.stack.stackName
        options.stack.bootstrapStackVersionSsmParameter w.liveVersion (hgate hvo)]
      dsimp only
      rw [show (10 : Nat) = 9 + 1 from rfl, hloop]
      exact ⟨⟨_, rfl⟩, by simp [countIterations, ApiCall.isDescribe]⟩
    · rw [if_neg hvo]
      dsimp only
      rw [show (10 : Nat) = 9 + 1 from rfl, hloop]
      exact ⟨⟨_, rfl⟩, by simp [countIterations, ApiCall.isDescribe]⟩

/-- World used by the C3 witness: the stack is stuck requiring explicit
continuation and the stabilization wait always throws. -/
def wC3 : World :=
  { wSample with
      lookupStatus := fun _ => .updateRollbackFailed
      stabilizeOutcome := fun _ => .threw "wait failed" }

theorem rollback_retry_iff_witness :
    ((∃ ns, (rollbackIteration wC3 false true none "S" 0 []).2 = .again ns) ↔
      ((iterFinalStatus wC3 0).rollbackChoice = .CONTINUE_UPDATE_ROLLBACK ∧
        false = true)) ∧
    ((∃ m, (rollbackStack wC3 {} { stack := stackSample }).result
        = .error (.perIteration m)) ∧
      countIterations (rollbackStack wC3 {} { stack := stackSample }).trace = 1) :=
  ⟨rollback_retry_iff_continue_and_force.1 wC3 false true none "S" 0 [] "wait failed"
     (Or.inr rfl) rfl,
   rollback_retry_iff_continue_and_force.2 wC3 {} { stack := stackSample } ⟨"a", "r"⟩
     "wait failed" rfl (fun _ => by decide) rfl rfl rfl⟩

/-- C8: in the `CONTINUE_UPDATE_ROLLBACK` branch with force enabled, the
iteration polls the event history and passes to the continue-rollback
call exactly the failed resources reported directly against the stack —
the polled resource errors that are not stack-level events and have no
parent-stack logical ids, mapped to their logical resource ids — and
this skip set replaces the prior orphan list (the issued calls do not
depend on it). -/
theorem continue_rollback_skip_set (w : World) (quiet : Bool) (ra : Option String)
    (dn : String) (i : Nat) (skip skip' : List String)
    (hchoice : (w.lookupStatus i).rollbackChoice = .CONTINUE_UPDATE_ROLLBACK) :
    (rollbackIteration w true quiet ra dn i skip).1 =
      [.describeStack dn, .pollEvents dn,
       .continueUpdateRollbackCall dn ra (computeSkip (w.pollErrors i)),
       .stabilizeCall dn] ∧
    (∀ x, x ∈ computeSkip (w.pollErrors i) ↔
      ∃ r ∈ w.pollErrors i, r.isStackEvent = false ∧ r.parentStackLogicalIds = [] ∧
        x = r.logicalResourceId.getD "") ∧
    (rollbackIteration w true quiet ra dn i skip).1 =
      (rollbackIteration w true quiet ra dn i skip').1 := by
  have htrace : ∀ s : List String, (rollbackIteration w true quiet ra dn i s).1 =
      [.describeStack dn, .pollEvents dn,
       .continueUpdateRollbackCall dn ra (computeSkip (w.pollErrors i)),
       .stabilizeCall dn] := by
    intro s
    unfold rollbackIteration
    dsimp only
    rw [hchoice]
    dsimp only
    rw [afterMutation_trace]
    simp
  refine ⟨htrace skip, ?_, by rw [htrace skip, htrace skip']⟩
  intro x
  simp only [computeSkip]
  constructor
  · intro hx
    obtain ⟨r, hr, hfx⟩ := List.mem_map.mp hx
    obtain ⟨hrl, hcond⟩ := List.mem_filter.mp hr
    simp only [Bool.and_eq_true, Bool.not_eq_true', beq_iff_eq,
      List.length_eq_zero] at hcond
    exact ⟨r, hrl, hcond.1, hcond.2, hfx.symm⟩
  · rintro ⟨r, hrl, h1, h2, hx⟩
    rw [hx]
    exact List.mem_map.mpr ⟨r, List.mem_filter.mpr ⟨hrl, by simp [h1, h2]⟩, rfl⟩

/-- World used by the C8 witness: stuck stack with a mixed event history. -/
def wC8 : World :=
  { wC3 with
      pollErrors := fun _ =>
        [⟨false, [], some "Res1"⟩, ⟨true, [], some "StackEv"⟩,
         ⟨false, ["Parent"], some "Nested"⟩] }

theorem continue_rollback_skip_set_witness :
    (rollbackIteration wC8 true true none "S" 0 ["Z"]).1 =
      [.describeStack "S", .pollEvents "S",
       .continueUpdateRollbackCall "S" none (computeSkip (wC8.pollErrors 0)),
       .stabilizeCall "S"] ∧
    ("Res1" ∈ computeSkip (wC8.pollErrors 0) ∧ computeSkip (wC8.pollErrors 0) = ["Res1"]) ∧
    (rollbackIteration wC8 true true none "S" 0 ["Z"]).1 =
      (rollbackIteration wC8 true true none "S" 0 []).1 :=
  ⟨(continue_rollback_skip_set wC8 true none "S" 0 ["Z"] [] rfl).1,
   ⟨((continue_rollback_skip_set wC8 true none "S" 0 ["Z"] [] rfl).2.1 "Res1").mpr
      ⟨⟨false, [], some "Res1"⟩, by decide, rfl, rfl, rfl⟩, by decide⟩,
   (continue_rollback_skip_set wC8 true none "S" 0 ["Z"] [] rfl).2.2⟩

/-! ### Bootstrap gate position lemmas -/

/-- Whether a call is a bootstrap-gate validation. -/
def ApiCall.isValidate : ApiCall → Bool
  | .validateVersionCall _ => true
  | _ => false

theorem gate_err_of_lt (name : String) (p : Option String) (req live : Nat)
    (h : live < req) :
    validateBootstrapStackVersion name (some req) p live =
      .error (name ++ ": " ++ versionShortfallMessage req live) := by
  unfold validateBootstrapStackVersion envValidateVersion
  simp [h]

theorem rollbackIteration_no_validate (w : World) (force quiet : Bool)
    (ra : Option String) (dn : String) (i : Nat) (skip : List String) :
    (rollbackIteration w force quiet ra dn i skip).1.filter ApiCall.isValidate = [] := by
  unfold rollbackIteration
  dsimp only
  cases (w.lookupStatus i).rollbackChoice with
  | NONE => simp [ApiCall.isValidate]
  | ROLLBACK_FAILED => simp [ApiCall.isValidate]
  | START_ROLLBACK =>
    dsimp only
    rw [afterMutation_trace]
    simp [ApiCall.isValidate]
  | CONTINUE_UPDATE_ROLLBACK =>
    dsimp only
    by_cases hf : force = true <;>
      simp [hf, afterMutation_trace, ApiCall.isValidate]

theorem rollbackLoop_no_validate (w : World) (force quiet : Bool)
    (ra : Option String) (dn : String) : ∀ (fuel i : Nat) (skip : List String),
    (rollbackLoop w force quiet ra dn fuel i skip).1.filter ApiCall.isValidate = [] := by
  intro fuel
  induction fuel with
  | zero => intro i skip; simp [rollbackLoop]
  | succ n ih =>
    intro i skip
    rw [rollbackLoop_succ]
    rcases hit : rollbackIteration w force quiet ra dn i skip with ⟨t, s⟩
    have hnv : t.filter ApiCall.isValidate = [] := by
      have h := rollbackIteration_no_validate w force quiet ra dn i skip
      rw [hit] at h
      exact h
    cases s with
    | finished r => exact hnv
    | failed e => exact hnv
    | again ns =>
      dsimp only
      rw [List.filter_append, hnv]
      exact ih (i+1) ns

theorem afterMutation_failed_perIteration (w : World) (force quiet : Bool)
    (dn : String) (i : Nat) (ns : List String) (t : List ApiCall) (e : CdkErr)
    (h : (afterMutation w force quiet dn i ns t).2 = .failed e) :
    ∃ m, e = .perIteration m := by
  unfold afterMutation at h
  cases hm : iterStackErrorMessage w quiet i <;> rw [hm] at h
  · exact absurd h (by simp)
  · dsimp only at h
    split at h
    · exact absurd h (by simp)
    · split at h
      · exact absurd h (by simp)
      · dsimp only at h
        injection h with h1
        exact ⟨_, h1.symm⟩

theorem rollbackIteration_failed_perIteration (w : World) (force quiet : Bool)
    (ra : Option String) (dn : String) (i : Nat) (skip : List String) (e : CdkErr)
    (h : (rollbackIteration w force quiet ra dn i skip).2 = .failed e) :
    ∃ m, e = .perIteration m := by
  unfold rollbackIteration at h
  dsimp only at h
  cases hc : (w.lookupStatus i).rollbackChoice <;> rw [hc] at h
  · exact absurd h (by simp)
  · dsimp only at h
    exact afterMutation_failed_perIteration w force quiet dn i _ _ e h
  · dsimp only at h
    rcases hpoll : (if force = true then ([ApiCall.pollEvents dn], computeSkip (w.pollErrors i))
        else ([], skip)) with ⟨tpoll, ns⟩
    rw [hpoll] at h
    dsimp only at h
    exact afterMutation_failed_perIteration w force quiet dn i _ _ e h
  · exact absurd h (by simp)

theorem rollbackLoop_no_versionMismatch (w : World) (force quiet : Bool)
    (ra : Option String) (dn : String) : ∀ (fuel i : Nat) (skip : List String) (m : String),
    (rollbackLoop w force quiet ra dn fuel i skip).2 ≠ .error (.versionMismatch m) := by
  intro fuel
  induction fuel with
  | zero => intro i skip m h; exact absurd h (by simp [rollbackLoop])
  | succ n ih =>
    intro i skip m h
    rw [rollbackLoop_succ] at h
    rcases hit : rollbackIteration w force quiet ra dn i skip with ⟨t, s⟩
    rw [hit] at h
    cases s with
    | finished r => exact absurd h (by simp)
    | failed e =>
      dsimp only at h
      injection h with h1
      obtain ⟨m2, rfl⟩ := rollbackIteration_failed_perIteration w force quiet ra dn i skip e
        (by rw [hit])
      exact absurd h1 (by simp)
    | again ns =>
      dsimp only at h
      exact ih (i+1) ns m h

/-- C10: `rollbackStack` validates the bootstrap environment against the
fixed minimum version constant 23 (`BOOTSTRAP_STACK_VERSION_FOR_ROLLBACK`),
not the requirement the stack itself declares: the single gate call in its
trace carries requirement 23 and the operation fails with a
version-mismatch error exactly when the live version is below 23,
whatever `requiresBootstrapStackVersion` the stack declares; the
validation is skipped entirely exactly when the
`validateBootstrapStackVersion` option is explicitly `false`. -/
theorem rollback_validates_constant_23 (w : World) (st : DeploymentsState)
    (options : RollbackStackOptions) (env : Environment)
    (hpre : ¬ (options.force ∧ 0 < (options.orphanLogicalIds.getD []).length))
    (henv : options.stack.environment = some env) :
    BOOTSTRAP_STACK_VERSION_FOR_ROLLBACK = 23 ∧
    (options.validateBootstrapStackVersion = some false →
      ((rollbackStack w st options).trace.filter ApiCall.isValidate = [] ∧
       ∀ m, (rollbackStack w st options).result ≠ .error (.versionMismatch m))) ∧
    (options.validateBootstrapStackVersion ≠ some false →
      ((rollbackStack w st options).trace.filter ApiCall.isValidate =
         [ApiCall.validateVersionCall (some BOOTSTRAP_STACK_VERSION_FOR_ROLLBACK)] ∧
       ((∃ m, (rollbackStack w st options).result = .error (.versionMismatch m)) ↔
         w.liveVersion < BOOTSTRAP_STACK_VERSION_FOR_ROLLBACK))) := by
  obtain ⟨k, p, st1, hps⟩ :=
    prepareSdkFor_some w st options.stack options.roleArn .forWriting env henv
  refine ⟨rfl, ?_, ?_⟩
  · intro hsf
    have hvo : ¬ options.validateBootstrapStackVersion.getD true = true := by
      rw [hsf]
      simp
    unfold rollbackStack
    rw [if_neg hpre, hps]
    dsimp only
    rw [if_neg hvo]
    dsimp only
    rcases hl : rollbackLoop w options.force options.quiet p.cloudFormationRoleArn
        options.stack.stackName 10 0 (options.orphanLogicalIds.getD []) with ⟨t3, r⟩
    have h3 := rollbackLoop_no_validate w options.force options.quiet
      p.cloudFormationRoleArn options.stack.stackName 10 0 (options.orphanLogicalIds.getD [])
    have h4 := fun m => rollbackLoop_no_versionMismatch w options.force options.quiet
      p.cloudFormationRoleArn options.stack.stackName 10 0 (options.orphanLogicalIds.getD []) m
    rw [hl] at h3
    dsimp only at h3
    constructor
    · dsimp only
      rw [List.filter_append, List.filter_append, h3]
      simp [ApiCall.isValidate]
    · intro m
      have h5 := h4 m
      rw [hl] at h5
      dsimp only
      exact h5
  · intro hnsf
    have hvo : options.validateBootstrapStackVersion.getD true = true := by
      cases hh : options.validateBootstrapStackVersion with
      | none => rfl
      | some b =>
        cases b with
        | false => exact absurd hh hnsf
        | true => rfl
    unfold rollbackStack
    rw [if_neg hpre, hps]
    dsimp only
    rw [if_pos hvo]
    by_cases hlt : w.liveVersion < BOOTSTRAP_STACK_VERSION_FOR_ROLLBACK
    · rw [gate_err_of_lt options.stack.stackName
        options.stack.bootstrapStackVersionSsmParameter
        BOOTSTRAP_STACK_VERSION_FOR_ROLLBACK w.liveVersion hlt]
      dsimp only
      refine ⟨by simp [ApiCall.isValidate], ?_, fun _ => ⟨_, rfl⟩⟩
      intro _
      exact hlt
    · have hge : BOOTSTRAP_STACK_VERSION_FOR_ROLLBACK ≤ w.liveVersion :=
        Nat.le_of_not_lt hlt
      rw [gate_ok_of_le options.stack.stackName
        options.stack.bootstrapStackVersionSsmParameter w.liveVersion hge]
      dsimp only
      rcases hl : rollbackLoop w options.force options.quiet p.cloudFormationRoleArn
          options.stack.stackName 10 0 (options.orphanLogicalIds.getD []) with ⟨t3, r⟩
      have h3 := rollbackLoop_no_validate w options.force options.quiet
        p.cloudFormationRoleArn options.stack.stackName 10 0 (options.orphanLogicalIds.getD [])
      have h4 := fun m => rollbackLoop_no_versionMismatch w options.force options.quiet
        p.cloudFormationRoleArn options.stack.stackName 10 0
        (options.orphanLogicalIds.getD []) m
      rw [hl] at h3
      dsimp only at h3
      constructor
      · dsimp only
        rw [List.filter_append, List.filter_append, h3]
        simp [ApiCall.isValidate]
      · constructor
        · rintro ⟨m, hm⟩
          have h5 := h4 m
          rw [hl] at h5
          dsimp only at hm
          exact absurd hm h5
        · intro hc
          exact absurd hc hlt

/-- Concrete plain rollback options used by the C10 witness. -/
def optsPlain : RollbackStackOptions := { stack := stackSample }

theorem rollback_validates_constant_23_witness :
    BOOTSTRAP_STACK_VERSION_FOR_ROLLBACK = 23 ∧
    (optsPlain.validateBootstrapStackVersion = some false →
      ((rollbackStack wSample {} optsPlain).trace.filter ApiCall.isValidate = [] ∧
       ∀ m, (rollbackStack wSample {} optsPlain).result ≠ .error (.versionMismatch m))) ∧
    (optsPlain.validateBootstrapStackVersion ≠ some false →
      ((rollbackStack wSample {} optsPlain).trace.filter ApiCall.isValidate =
         [ApiCall.validateVersionCall (some BOOTSTRAP_STACK_VERSION_FOR_ROLLBACK)] ∧
       ((∃ m, (rollbackStack wSample {} optsPlain).result = .error (.versionMismatch m)) ↔
         wSample.liveVersion < BOOTSTRAP_STACK_VERSION_FOR_ROLLBACK))) :=
  rollback_validates_constant_23 wSample {} optsPlain ⟨"a", "r"⟩ (by decide) rfl

/-- Stack artifact for the C4 counterexample: declared bootstrap
requirement 30. -/
def stackReq30 : StackArtifact :=
  { stackName := "S", environment := some ⟨"a", "r"⟩,
    requiresBootstrapStackVersion := some 30 }

/-- C4 counterexample: the declared bootstrap requirement of the stack (30)
exceeds the live version (25), yet `rollbackStack` does not fail with a
version-mismatch error — its gate compares the live version against the
fixed constant 23, which 25 satisfies, and the operation completes with
the structured not-in-rollbackable-state result. -/
theorem version_gate_claim_counterexample :
    stackReq30.requiresBootstrapStackVersion = some 30 ∧
    wSample.liveVersion = 25 ∧
    25 < 30 ∧
    (rollbackStack wSample {} { stack := stackReq30 }).result =
      .ok { notInRollbackableState := some true } :=
  ⟨rfl, rfl, by decide, rfl⟩

/-- C4 (amended): for every stack whose declared bootstrap-version
requirement exceeds the live version, `deployStack` fails with a
version-mismatch error whose message is prefixed with the stack name,
before any mutating call is issued; `rollbackStack` runs the same gate
but against the fixed constant `BOOTSTRAP_STACK_VERSION_FOR_ROLLBACK = 23`
instead of the requirement the stack itself declares, so (with validation
enabled) it
fails with the prefixed version-mismatch error before any mutating call
exactly when the live version is below 23. -/
theorem version_gate_before_mutation :
    (∀ (w : World) (st : DeploymentsState) (options : DeployStackOptions)
        (env : Environment) (r : Nat),
      options.stack.environment = some env →
      options.changeSetName = none →
      options.execute = none →
      options.stack.requiresBootstrapStackVersion = some r →
      w.liveVersion < r →
      ((deployStack w st options).result = .error (.versionMismatch
         (options.stack.stackName ++ ": " ++ versionShortfallMessage r w.liveVersion)) ∧
       mutatingCalls (deployStack w st options).trace = [])) ∧
    (∀ (w : World) (st : DeploymentsState) (options : RollbackStackOptions)
        (env : Environment),
      ¬ (options.force ∧ 0 < (options.orphanLogicalIds.getD []).length) →
      options.stack.environment = some env →
      options.validateBootstrapStackVersion.getD true = true →
      w.liveVersion < BOOTSTRAP_STACK_VERSION_FOR_ROLLBACK →
      ((rollbackStack w st options).result = .error (.versionMismatch
         (options.stack.stackName ++ ": " ++
           versionShortfallMessage BOOTSTRAP_STACK_VERSION_FOR_ROLLBACK w.liveVersion)) ∧
       mutatingCalls (rollbackStack w st options).trace = [])) := by
  constructor
  · intro w st options env r henv hcs hex hreq hlt
    obtain ⟨k, p, st1, hps⟩ :=
      prepareSdkFor_some w st options.stack options.roleArn .forWriting env henv
    unfold deployStack
    rw [if_neg (by rw [hcs, hex]; simp [changeSetOptionTruthy]), hps]
    dsimp only
    rw [hreq, gate_err_of_lt options.stack.stackName
      options.stack.bootstrapStackVersionSsmParameter r w.liveVersion hlt]
    exact ⟨rfl, by simp [mutatingCalls, ApiCall.isMutating]⟩
  · intro w st options env hpre henv hvo hlt
    obtain ⟨k, p, st1, hps⟩ :=
      prepareSdkFor_some w st options.stack options.roleArn .forWriting env henv
    unfold rollbackStack
    rw [if_neg hpre, hps]
    dsimp only
    rw [if_pos hvo, gate_err_of_lt options.stack.stackName
      options.stack.bootstrapStackVersionSsmParameter
      BOOTSTRAP_STACK_VERSION_FOR_ROLLBACK w.liveVersion hlt]
    exact ⟨rfl, by simp [mutatingCalls, ApiCall.isMutating]⟩

/-- World where the environment reports bootstrap version 3. -/
def wLive3 : World := { wSample with liveVersion := 3 }

/-- Stack artifact whose declared bootstrap requirement is 5. -/
def stackReq5 : StackArtifact :=
  { stackName := "S", environment := some ⟨"a", "r"⟩,
    requiresBootstrapStackVersion := some 5 }

theorem version_gate_before_mutation_witness :
    ((deployStack wLive3 {} { stack := stackReq5 }).result = .error (.versionMismatch
       ("S" ++ ": " ++ versionShortfallMessage 5 3)) ∧
     mutatingCalls (deployStack wLive3 {} { stack := stackReq5 }).trace = []) ∧
    ((rollbackStack wLive3 {} { stack := stackReq5 }).result = .error (.versionMismatch
       ("S" ++ ": " ++ versionShortfallMessage BOOTSTRAP_STACK_VERSION_FOR_ROLLBACK 3)) ∧
     mutatingCalls (rollbackStack wLive3 {} { stack := stackReq5 }).trace = []) :=
  ⟨version_gate_before_mutation.1 wLive3 {} { stack := stackReq5 } ⟨"a", "r"⟩ 5
     rfl rfl rfl rfl (by decide),
   version_gate_before_mutation.2 wLive3 {} { stack := stackReq5 } ⟨"a", "r"⟩
     (by decide) rfl rfl (by decide)⟩

/-- C7: in `prepareSdkWithLookupRoleFor`, when role assumption succeeded
(`didAssumeRole = true`) and the stack declares a (truthy) lookup-role
bootstrap-version requirement and parameter location, the operation
fails with a version-mismatch error exactly when the live version read
from the declared parameter is strictly below the requirement; when role
assumption did not occur, it emits the non-fatal default-credentials
warning and returns the default credentials instead of failing. -/
theorem lookupRole_version_check (w : World) (st : DeploymentsState)
    (stack : StackArtifact) (role : LookupRole) (param : String) (req : Nat)
    (hrole : stack.lookupRole = some role)
    (hparam : role.bootstrapStackVersionSsmParameter = some param)
    (hpne : param ≠ "")
    (hreq : role.requiresBootstrapStackVersion = some req)
    (hrne : req ≠ 0) :
    ((lookupSdkResult w st stack).value.didAssumeRole = true →
      ((∃ m, (prepareSdkWithLookupRoleFor w st stack).result =
          .error (.versionMismatch m)) ↔ w.ssmVersion param < req)) ∧
    ((lookupSdkResult w st stack).value.didAssumeRole = false →
      ((prepareSdkWithLookupRoleFor w st stack).result =
        .ok ⟨(lookupSdkResult w st stack).value.sdk, false, w.resolvedEnvironment⟩ ∧
       (prepareSdkWithLookupRoleFor w st stack).warnings =
         [defaultCredsWarning true])) := by
  have hdp : stack.lookupRole.bind (fun r => r.bootstrapStackVersionSsmParameter)
      = some param := by
    rw [hrole]
    exact hparam
  have hdr : stack.lookupRole.bind (fun r => r.requiresBootstrapStackVersion)
      = some req := by
    rw [hrole]
    exact hreq
  have hie : param.isEmpty = false := by
    cases hie : param.isEmpty
    · rfl
    · exact absurd ((String.isEmpty_iff param).mp hie) hpne
  have htp : truthyStr (some param) = true := by
    simp [truthyStr, hie]
  have htn : truthyNat (some req) = true := by
    simp [truthyNat, hrne]
  unfold prepareSdkWithLookupRoleFor
  dsimp only
  rw [hdp, hdr, htp, htn]
  constructor
  · intro hda
    rw [hda]
    by_cases hlt : w.ssmVersion ((some param).getD "") < (some req).getD 0
    · rw [if_pos hlt]
      exact ⟨fun _ => by simpa using hlt, fun _ => ⟨_, rfl⟩⟩
    · rw [if_neg hlt]
      constructor
      · rintro ⟨m, hm⟩
        exact absurd hm (by simp)
      · intro hc
        exact absurd (by simpa using hc) hlt
  · intro hda
    rw [hda, hrole]
    constructor
    · simp
    · simp

/-- Lookup role declaring requirement 8 at a concrete parameter. -/
def roleSample : LookupRole :=
  { arn := "arn:lookup", requiresBootstrapStackVersion := some 8,
    bootstrapStackVersionSsmParameter := some "/cdk/version" }

/-- Stack artifact carrying the sample lookup role. -/
def stackLookup : StackArtifact :=
  { stackName := "S", environment := some ⟨"a", "r"⟩, lookupRole := some roleSample }

/-- World where the lookup role is assumed and the parameter reads 7. -/
def wLookup : World :=
  { wSample with ssmVersion := fun _ => 7, provider := fun _ _ _ => ⟨9, true⟩ }

/-- World where role assumption returns default credentials. -/
def wLookupNoAssume : World :=
  { wLookup with provider := fun _ _ _ => ⟨9, false⟩ }

theorem lookupRole_version_check_witness :
    ((∃ m, (prepareSdkWithLookupRoleFor wLookup {} stackLookup).result =
        .error (.versionMismatch m)) ↔ wLookup.ssmVersion "/cdk/version" < 8) ∧
    ((prepareSdkWithLookupRoleFor wLookupNoAssume {} stackLookup).result =
      .ok ⟨(lookupSdkResult wLookupNoAssume {} stackLookup).value.sdk, false,
        wLookupNoAssume.resolvedEnvironment⟩ ∧
     (prepareSdkWithLookupRoleFor wLookupNoAssume {} stackLookup).warnings =
       [defaultCredsWarning true]) :=
  ⟨(lookupRole_version_check wLookup {} stackLookup roleSample "/cdk/version" 8
      rfl rfl (by decide) rfl (by decide)).1 rfl,
   (lookupRole_version_check wLookupNoAssume {} stackLookup roleSample "/cdk/version" 8
      rfl rfl (by decide) rfl (by decide)).2 rfl⟩
